import Mathlib

/-!
Verification of the progress state-synchronization registry
(`supernode/daemon/mgr/progress/state_sync_map.go`) of Dragonfly.

The Go file defines `stateSyncMap`, a thread-safe map from string keys to
`interface{}` values, with operations `add`, `get`, `remove` and four typed
getters (`getAsSuperState`, `getAsClientState`, `getAsPeerState`,
`getAsPieceState`) that perform a runtime type assertion on the stored value.

The embedding models a Go `interface{}` value as a tagged value `GoValue`:
the four pointer types `*superState`, `*clientState`, `*peerState`,
`*pieceState` become four constructors carrying a `Nat` standing for the
pointer identity, and every other dynamic type becomes the `other`
constructor carrying the dynamic type name and the value identity.  The
underlying `sync.Map`, restricted to the single-state view relevant here,
is a function `String → Option GoValue` with `Store`, `Load`, `Delete`.
Each Go method becomes a state transformer returning the (possibly
updated) map together with the Go return value; errors are modelled by
their `errortypes` sentinel cause, which `errors.Wrap`/`errors.Wrapf`
preserve.
-/

namespace Progress

/-- A dynamic Go value stored in the map: one of the four typed state
pointers of the progress package, or any other dynamic type.  The `Nat`
payload stands for the identity of the pointed-to value. -/
inductive GoValue where
  | superState (p : Nat)
  | clientState (p : Nat)
  | peerState (p : Nat)
  | pieceState (p : Nat)
  | other (tyName : String) (p : Nat)
deriving DecidableEq

/-- The variant kind (dynamic type tag) of a stored value. -/
inductive VariantKind where
  | superK
  | clientK
  | peerK
  | pieceK
  | otherK (tyName : String)
deriving DecidableEq

/-- The dynamic type tag of a `GoValue`. -/
def GoValue.kind : GoValue → VariantKind
  | .superState _ => .superK
  | .clientState _ => .clientK
  | .peerState _ => .peerK
  | .pieceState _ => .pieceK
  | .other ty _ => .otherK ty

/-- Error causes used by `state_sync_map.go`.  Modelled from the spec:
the sentinels live in `pkg/errortypes` which is not under `src/`; the spec
names them `EmptyKey` (`ErrEmptyValue`), `NotFound` (`ErrDataNotFound`)
and `TypeMismatch` (`ErrConvertFailed`), three distinct error kinds.
`errors.Wrap`/`errors.Wrapf` in the Go code annotate an error but keep its
cause, so a result is modelled by the sentinel cause alone. -/
inductive GoErr where
  | emptyValue
  | dataNotFound
  | convertFailed
deriving DecidableEq

/-- Modelled from the spec: `stringutils.IsEmptyStr` lives in
`pkg/stringutils`, which is not under `src/`.  The spec says keys are
rejected exactly when they are the empty string ("Keys are never empty
strings — the store rejects empty-key operations"). -/
def isEmptyStr (s : String) : Bool := s = ""

/-- The single-state view of the embedded `sync.Map` inside
`stateSyncMap`: a mapping from string keys to stored dynamic values. -/
def stateSyncMap : Type := String → Option GoValue

/-- `sync.Map.Load`: look a key up. -/
def stateSyncMap.Load (m : stateSyncMap) (k : String) : Option GoValue := m k

/-- `sync.Map.Store`: insert or overwrite a key. -/
def stateSyncMap.Store (m : stateSyncMap) (k : String) (v : GoValue) :
    stateSyncMap :=
  fun q => if q = k then some v else m q

/-- `sync.Map.Delete`: delete a key. -/
def stateSyncMap.Delete (m : stateSyncMap) (k : String) : stateSyncMap :=
  fun q => if q = k then none else m q

/-- `newStateSyncMap`: the fresh, empty map. -/
def newStateSyncMap : stateSyncMap := fun _ => none

/-- `stateSyncMap.add`: returns `ErrEmptyValue` if the key is empty,
otherwise stores the key-value pair unconditionally. -/
def stateSyncMap.add (m : stateSyncMap) (key : String) (value : GoValue) :
    stateSyncMap × Except GoErr Unit :=
  if isEmptyStr key then (m, .error .emptyValue)
  else (m.Store key value, .ok ())

/-- `stateSyncMap.get`: returns `ErrEmptyValue` on an empty key,
`ErrDataNotFound` when `Load` misses, else the stored value. -/
def stateSyncMap.get (m : stateSyncMap) (key : String) :
    stateSyncMap × Except GoErr GoValue :=
  if isEmptyStr key then (m, .error .emptyValue)
  else
    match m.Load key with
    | some v => (m, .ok v)
    | none => (m, .error .dataNotFound)

/-- `stateSyncMap.getAsSuperState`: `get`, then a `*superState` type
assertion; `ErrConvertFailed` when the assertion fails.  The wrapped
`get` error keeps its cause. -/
def stateSyncMap.getAsSuperState (m : stateSyncMap) (key : String) :
    stateSyncMap × Except GoErr Nat :=
  match m.get key with
  | (m1, .error e) => (m1, .error e)
  | (m1, .ok (.superState p)) => (m1, .ok p)
  | (m1, .ok _) => (m1, .error .convertFailed)

/-- `stateSyncMap.getAsClientState`: `get`, then a `*clientState` type
assertion; `ErrConvertFailed` when the assertion fails. -/
def stateSyncMap.getAsClientState (m : stateSyncMap) (key : String) :
    stateSyncMap × Except GoErr Nat :=
  match m.get key with
  | (m1, .error e) => (m1, .error e)
  | (m1, .ok (.clientState p)) => (m1, .ok p)
  | (m1, .ok _) => (m1, .error .convertFailed)

/-- `stateSyncMap.getAsPeerState`: `get`, then a `*peerState` type
assertion; `ErrConvertFailed` when the assertion fails. -/
def stateSyncMap.getAsPeerState (m : stateSyncMap) (key : String) :
    stateSyncMap × Except GoErr Nat :=
  match m.get key with
  | (m1, .error e) => (m1, .error e)
  | (m1, .ok (.peerState p)) => (m1, .ok p)
  | (m1, .ok _) => (m1, .error .convertFailed)

/-- `stateSyncMap.getAsPieceState`: `get`, then a `*pieceState` type
assertion; `ErrConvertFailed` when the assertion fails. -/
def stateSyncMap.getAsPieceState (m : stateSyncMap) (key : String) :
    stateSyncMap × Except GoErr Nat :=
  match m.get key with
  | (m1, .error e) => (m1, .error e)
  | (m1, .ok (.pieceState p)) => (m1, .ok p)
  | (m1, .ok _) => (m1, .error .convertFailed)

/-- `stateSyncMap.remove`: `ErrEmptyValue` on an empty key,
`ErrDataNotFound` when `Load` misses, else deletes the key. -/
def stateSyncMap.remove (m : stateSyncMap) (key : String) :
    stateSyncMap × Except GoErr Unit :=
  if isEmptyStr key then (m, .error .emptyValue)
  else
    match m.Load key with
    | none => (m, .error .dataNotFound)
    | some _ => (m.Delete key, .ok ())

/-- A sample map used by the witness theorems: one peer state under
`"pk"` and one piece state under `"qk"`. -/
def sampleMap : stateSyncMap :=
  (newStateSyncMap.Store "pk" (.peerState 3)).Store "qk" (.pieceState 7)

theorem Store_Load_self (m : stateSyncMap) (k : String) (v : GoValue) :
    (m.Store k v).Load k = some v := by
  simp [stateSyncMap.Store, stateSyncMap.Load]

theorem Store_Load_other (m : stateSyncMap) (k q : String) (v : GoValue)
    (h : q ≠ k) : (m.Store k v).Load q = m.Load q := by
  simp [stateSyncMap.Store, stateSyncMap.Load, h]

theorem Delete_Load_self (m : stateSyncMap) (k : String) :
    (m.Delete k).Load k = none := by
  simp [stateSyncMap.Delete, stateSyncMap.Load]

theorem get_of_empty (m : stateSyncMap) (k : String) (h : isEmptyStr k = true) :
    m.get k = (m, .error .emptyValue) := by
  simp [stateSyncMap.get, h]

theorem get_of_absent (m : stateSyncMap) (k : String)
    (h1 : isEmptyStr k = false) (h2 : m.Load k = none) :
    m.get k = (m, .error .dataNotFound) := by
  simp [stateSyncMap.get, h1, h2]

theorem get_of_present (m : stateSyncMap) (k : String) (v : GoValue)
    (h1 : isEmptyStr k = false) (h2 : m.Load k = some v) :
    m.get k = (m, .ok v) := by
  simp [stateSyncMap.get, h1, h2]

theorem get_fst (m : stateSyncMap) (k : String) : (m.get k).1 = m := by
  unfold stateSyncMap.get
  split
  · rfl
  · cases m.Load k <;> rfl

theorem add_of_empty (m : stateSyncMap) (k : String) (v : GoValue)
    (h : isEmptyStr k = true) : m.add k v = (m, .error .emptyValue) := by
  simp [stateSyncMap.add, h]

theorem add_of_nonempty (m : stateSyncMap) (k : String) (v : GoValue)
    (h : isEmptyStr k = false) : m.add k v = (m.Store k v, .ok ()) := by
  simp [stateSyncMap.add, h]

theorem remove_of_empty (m : stateSyncMap) (k : String)
    (h : isEmptyStr k = true) : m.remove k = (m, .error .emptyValue) := by
  simp [stateSyncMap.remove, h]

theorem remove_of_absent (m : stateSyncMap) (k : String)
    (h1 : isEmptyStr k = false) (h2 : m.Load k = none) :
    m.remove k = (m, .error .dataNotFound) := by
  simp [stateSyncMap.remove, h1, h2]

theorem remove_of_present (m : stateSyncMap) (k : String) (v : GoValue)
    (h1 : isEmptyStr k = false) (h2 : m.Load k = some v) :
    m.remove k = (m.Delete k, .ok ()) := by
  simp [stateSyncMap.remove, h1, h2]

theorem getAsSuperState_of_get_error (m : stateSyncMap) (k : String)
    (e : GoErr) (h : m.get k = (m, .error e)) :
    m.getAsSuperState k = (m, .error e) := by
  unfold stateSyncMap.getAsSuperState
  rw [h]

theorem getAsSuperState_of_super (m : stateSyncMap) (k : String) (p : Nat)
    (h : m.get k = (m, .ok (.superState p))) :
    m.getAsSuperState k = (m, .ok p) := by
  unfold stateSyncMap.getAsSuperState
  rw [h]

theorem getAsSuperState_of_wrongKind (m : stateSyncMap) (k : String)
    (v : GoValue) (h : m.get k = (m, .ok v)) (hk : v.kind ≠ .superK) :
    m.getAsSuperState k = (m, .error .convertFailed) := by
  unfold stateSyncMap.getAsSuperState
  rw [h]
  cases v <;> simp [GoValue.kind] at hk ⊢

theorem getAsSuperState_fst (m : stateSyncMap) (k : String) :
    (m.getAsSuperState k).1 = m := by
  have h := get_fst m k
  unfold stateSyncMap.getAsSuperState
  rcases hg : m.get k with ⟨m1, r⟩
  rw [hg] at h
  cases r with
  | error e => simpa using h
  | ok v => cases v <;> simpa using h

theorem getAsClientState_of_get_error (m : stateSyncMap) (k : String)
    (e : GoErr) (h : m.get k = (m, .error e)) :
    m.getAsClientState k = (m, .error e) := by
  unfold stateSyncMap.getAsClientState
  rw [h]

theorem getAsClientState_of_client (m : stateSyncMap) (k : String) (p : Nat)
    (h : m.get k = (m, .ok (.clientState p))) :
    m.getAsClientState k = (m, .ok p) := by
  unfold stateSyncMap.getAsClientState
  rw [h]

theorem getAsClientState_of_wrongKind (m : stateSyncMap) (k : String)
    (v : GoValue) (h : m.get k = (m, .ok v)) (hk : v.kind ≠ .clientK) :
    m.getAsClientState k = (m, .error .convertFailed) := by
  unfold stateSyncMap.getAsClientState
  rw [h]
  cases v <;> simp [GoValue.kind] at hk ⊢

theorem getAsClientState_fst (m : stateSyncMap) (k : String) :
    (m.getAsClientState k).1 = m := by
  have h := get_fst m k
  unfold stateSyncMap.getAsClientState
  rcases hg : m.get k with ⟨m1, r⟩
  rw [hg] at h
  cases r with
  | error e => simpa using h
  | ok v => cases v <;> simpa using h

theorem getAsPeerState_of_get_error (m : stateSyncMap) (k : String)
    (e : GoErr) (h : m.get k = (m, .error e)) :
    m.getAsPeerState k = (m, .error e) := by
  unfold stateSyncMap.getAsPeerState
  rw [h]

theorem getAsPeerState_of_peer (m : stateSyncMap) (k : String) (p : Nat)
    (h : m.get k = (m, .ok (.peerState p))) :
    m.getAsPeerState k = (m, .ok p) := by
  unfold stateSyncMap.getAsPeerState
  rw [h]

theorem getAsPeerState_of_wrongKind (m : stateSyncMap) (k : String)
    (v : GoValue) (h : m.get k = (m, .ok v)) (hk : v.kind ≠ .peerK) :
    m.getAsPeerState k = (m, .error .convertFailed) := by
  unfold stateSyncMap.getAsPeerState
  rw [h]
  cases v <;> simp [GoValue.kind] at hk ⊢

theorem getAsPeerState_fst (m : stateSyncMap) (k : String) :
    (m.getAsPeerState k).1 = m := by
  have h := get_fst m k
  unfold stateSyncMap.getAsPeerState
  rcases hg : m.get k with ⟨m1, r⟩
  rw [hg] at h
  cases r with
  | error e => simpa using h
  | ok v => cases v <;> simpa using h

theorem getAsPieceState_of_get_error (m : stateSyncMap) (k : String)
    (e : GoErr) (h : m.get k = (m, .error e)) :
    m.getAsPieceState k = (m, .error e) := by
  unfold stateSyncMap.getAsPieceState
  rw [h]

theorem getAsPieceState_of_piece (m : stateSyncMap) (k : String) (p : Nat)
    (h : m.get k = (m, .ok (.pieceState p))) :
    m.getAsPieceState k = (m, .ok p) := by
  unfold stateSyncMap.getAsPieceState
  rw [h]

theorem getAsPieceState_of_wrongKind (m : stateSyncMap) (k : String)
    (v : GoValue) (h : m.get k = (m, .ok v)) (hk : v.kind ≠ .pieceK) :
    m.getAsPieceState k = (m, .error .convertFailed) := by
  unfold stateSyncMap.getAsPieceState
  rw [h]
  cases v <;> simp [GoValue.kind] at hk ⊢

theorem getAsPieceState_fst (m : stateSyncMap) (k : String) :
    (m.getAsPieceState k).1 = m := by
  have h := get_fst m k
  unfold stateSyncMap.getAsPieceState
  rcases hg : m.get k with ⟨m1, r⟩
  rw [hg] at h
  cases r with
  | error e => simpa using h
  | ok v => cases v <;> simpa using h

theorem getAsSuperState_convertFailed_inv (m : stateSyncMap) (k : String)
    (h : (m.getAsSuperState k).2 = .error .convertFailed) :
    ∃ v, m.Load k = some v ∧ v.kind ≠ .superK := by
  cases hk : isEmptyStr k with
  | true =>
    rw [getAsSuperState_of_get_error m k GoErr.emptyValue
      (get_of_empty m k hk)] at h
    simp at h
  | false =>
    cases hv : m.Load k with
    | none =>
      rw [getAsSuperState_of_get_error m k GoErr.dataNotFound
        (get_of_absent m k hk hv)] at h
      simp at h
    | some v =>
      refine ⟨v, rfl, ?_⟩
      intro hkind
      cases v <;> simp [GoValue.kind] at hkind
      rw [getAsSuperState_of_super m k _ (get_of_present m k _ hk hv)] at h
      simp at h

theorem getAsClientState_convertFailed_inv (m : stateSyncMap) (k : String)
    (h : (m.getAsClientState k).2 = .error .convertFailed) :
    ∃ v, m.Load k = some v ∧ v.kind ≠ .clientK := by
  cases hk : isEmptyStr k with
  | true =>
    rw [getAsClientState_of_get_error m k GoErr.emptyValue
      (get_of_empty m k hk)] at h
    simp at h
  | false =>
    cases hv : m.Load k with
    | none =>
      rw [getAsClientState_of_get_error m k GoErr.dataNotFound
        (get_of_absent m k hk hv)] at h
      simp at h
    | some v =>
      refine ⟨v, rfl, ?_⟩
      intro hkind
      cases v <;> simp [GoValue.kind] at hkind
      rw [getAsClientState_of_client m k _ (get_of_present m k _ hk hv)] at h
      simp at h

theorem getAsPeerState_convertFailed_inv (m : stateSyncMap) (k : String)
    (h : (m.getAsPeerState k).2 = .error .convertFailed) :
    ∃ v, m.Load k = some v ∧ v.kind ≠ .peerK := by
  cases hk : isEmptyStr k with
  | true =>
    rw [getAsPeerState_of_get_error m k GoErr.emptyValue
      (get_of_empty m k hk)] at h
    simp at h
  | false =>
    cases hv : m.Load k with
    | none =>
      rw [getAsPeerState_of_get_error m k GoErr.dataNotFound
        (get_of_absent m k hk hv)] at h
      simp at h
    | some v =>
      refine ⟨v, rfl, ?_⟩
      intro hkind
      cases v <;> simp [GoValue.kind] at hkind
      rw [getAsPeerState_of_peer m k _ (get_of_present m k _ hk hv)] at h
      simp at h

theorem getAsPieceState_convertFailed_inv (m : stateSyncMap) (k : String)
    (h : (m.getAsPieceState k).2 = .error .convertFailed) :
    ∃ v, m.Load k = some v ∧ v.kind ≠ .pieceK := by
  cases hk : isEmptyStr k with
  | true =>
    rw [getAsPieceState_of_get_error m k GoErr.emptyValue
      (get_of_empty m k hk)] at h
    simp at h
  | false =>
    cases hv : m.Load k with
    | none =>
      rw [getAsPieceState_of_get_error m k GoErr.dataNotFound
        (get_of_absent m k hk hv)] at h
      simp at h
    | some v =>
      refine ⟨v, rfl, ?_⟩
      intro hkind
      cases v <;> simp [GoValue.kind] at hkind
      rw [getAsPieceState_of_piece m k _ (get_of_present m k _ hk hv)] at h
      simp at h

/-- Claim C1: on a non-empty key holding a piece state, `getAsPeerState`
fails with `ErrConvertFailed` and never returns a value; every typed
lookup fails exactly as `get` does on an empty key (`ErrEmptyValue`) or
an absent key (`ErrDataNotFound`); and a typed lookup fails with
`ErrConvertFailed` only when the key is present and holds a different
variant kind. -/
theorem typed_lookup_error_contract (m : stateSyncMap) (k : String) :
    (∀ p : Nat, isEmptyStr k = false → m.Load k = some (.pieceState p) →
      m.getAsPeerState k = (m, .error .convertFailed))
  ∧ (isEmptyStr k = true →
      (m.getAsSuperState k).2 = .error .emptyValue ∧
      (m.getAsClientState k).2 = .error .emptyValue ∧
      (m.getAsPeerState k).2 = .error .emptyValue ∧
      (m.getAsPieceState k).2 = .error .emptyValue)
  ∧ (isEmptyStr k = false → m.Load k = none →
      (m.getAsSuperState k).2 = .error .dataNotFound ∧
      (m.getAsClientState k).2 = .error .dataNotFound ∧
      (m.getAsPeerState k).2 = .error .dataNotFound ∧
      (m.getAsPieceState k).2 = .error .dataNotFound)
  ∧ ((m.getAsSuperState k).2 = .error .convertFailed →
      ∃ v, m.Load k = some v ∧ v.kind ≠ .superK)
  ∧ ((m.getAsClientState k).2 = .error .convertFailed →
      ∃ v, m.Load k = some v ∧ v.kind ≠ .clientK)
  ∧ ((m.getAsPeerState k).2 = .error .convertFailed →
      ∃ v, m.Load k = some v ∧ v.kind ≠ .peerK)
  ∧ ((m.getAsPieceState k).2 = .error .convertFailed →
      ∃ v, m.Load k = some v ∧ v.kind ≠ .pieceK) := by
  refine ⟨?_, ?_, ?_, getAsSuperState_convertFailed_inv m k,
    getAsClientState_convertFailed_inv m k,
    getAsPeerState_convertFailed_inv m k,
    getAsPieceState_convertFailed_inv m k⟩
  · intro p hk hv
    exact getAsPeerState_of_wrongKind m k _ (get_of_present m k _ hk hv)
      (by simp [GoValue.kind])
  · intro hk
    have hg := get_of_empty m k hk
    rw [getAsSuperState_of_get_error m k _ hg,
      getAsClientState_of_get_error m k _ hg,
      getAsPeerState_of_get_error m k _ hg,
      getAsPieceState_of_get_error m k _ hg]
    exact ⟨rfl, rfl, rfl, rfl⟩
  · intro hk hv
    have hg := get_of_absent m k hk hv
    rw [getAsSuperState_of_get_error m k _ hg,
      getAsClientState_of_get_error m k _ hg,
      getAsPeerState_of_get_error m k _ hg,
      getAsPieceState_of_get_error m k _ hg]
    exact ⟨rfl, rfl, rfl, rfl⟩

/-- Witness for C1 at `sampleMap`: the key `"qk"` holds a piece state, so
`getAsPeerState` fails with `ErrConvertFailed`; the empty key gives
`ErrEmptyValue`, the absent key `"zz"` gives `ErrDataNotFound`. -/
theorem typed_lookup_error_contract_witness :
    sampleMap.getAsPeerState "qk" = (sampleMap, .error .convertFailed)
  ∧ (sampleMap.getAsPeerState "").2 = .error .emptyValue
  ∧ (sampleMap.getAsPeerState "zz").2 = .error .dataNotFound
  ∧ (∃ v, sampleMap.Load "qk" = some v ∧ v.kind ≠ .peerK) := by
  refine ⟨(typed_lookup_error_contract sampleMap "qk").1 7 rfl rfl,
    ((typed_lookup_error_contract sampleMap "").2.1 rfl).2.2.1,
    ((typed_lookup_error_contract sampleMap "zz").2.2.1 rfl rfl).2.2.1,
    (typed_lookup_error_contract sampleMap "qk").2.2.2.2.2.1 ?_⟩
  rw [(typed_lookup_error_contract sampleMap "qk").1 7 rfl rfl]

/-- Claim C2: on a non-empty key, `add` succeeds and a subsequent `get`
returns exactly the stored value; when the value is one of the four
entity kinds, the matching typed getter returns exactly it. -/
theorem add_get_roundtrip (m : stateSyncMap) (k : String) (v : GoValue)
    (h : isEmptyStr k = false) :
    (m.add k v).2 = .ok ()
  ∧ ((m.add k v).1.get k).2 = .ok v
  ∧ (∀ p, v = .superState p → ((m.add k v).1.getAsSuperState k).2 = .ok p)
  ∧ (∀ p, v = .clientState p → ((m.add k v).1.getAsClientState k).2 = .ok p)
  ∧ (∀ p, v = .peerState p → ((m.add k v).1.getAsPeerState k).2 = .ok p)
  ∧ (∀ p, v = .pieceState p → ((m.add k v).1.getAsPieceState k).2 = .ok p) := by
  have ha : m.add k v = (m.Store k v, .ok ()) := add_of_nonempty m k v h
  have hg : (m.Store k v).get k = (m.Store k v, .ok v) :=
    get_of_present _ k v h (Store_Load_self m k v)
  refine ⟨by rw [ha], by rw [ha, hg], ?_, ?_, ?_, ?_⟩
  · rintro p rfl
    rw [ha, getAsSuperState_of_super _ k p hg]
  · rintro p rfl
    rw [ha, getAsClientState_of_client _ k p hg]
  · rintro p rfl
    rw [ha, getAsPeerState_of_peer _ k p hg]
  · rintro p rfl
    rw [ha, getAsPieceState_of_piece _ k p hg]

/-- Witness for C2: adding a peer state under `"a"` to the empty map
succeeds, `get` returns it, and `getAsPeerState` returns its payload. -/
theorem add_get_roundtrip_witness :
    (newStateSyncMap.add "a" (.peerState 5)).2 = .ok ()
  ∧ ((newStateSyncMap.add "a" (.peerState 5)).1.get "a").2
      = .ok (.peerState 5)
  ∧ ((newStateSyncMap.add "a" (.peerState 5)).1.getAsPeerState "a").2
      = .ok 5 := by
  obtain ⟨h1, h2, _, _, h5, _⟩ :=
    add_get_roundtrip newStateSyncMap "a" (.peerState 5) rfl
  exact ⟨h1, h2, h5 5 rfl⟩

/-- Counterexample to claim C3: the key `"k"` holds a peer state, yet
overwriting it with a piece state succeeds with no error and the stored
kind is quietly replaced — nothing signals the mixed-kind overwrite. -/
theorem mixed_kind_overwrite_not_signalled :
    ((newStateSyncMap.add "k" (.peerState 0)).1.add "k" (.pieceState 1)).2
      = .ok ()
  ∧ (((newStateSyncMap.add "k" (.peerState 0)).1.add "k"
      (.pieceState 1)).1.get "k").2 = .ok (.pieceState 1) :=
  ⟨rfl, rfl⟩

/-- Claim C3 as amended: `add` on a non-empty key overwrites
unconditionally even when the new value has a different variant kind —
both writes succeed with no error signalling the kind change, and the key
then holds the new kind; the mismatch surfaces only later, when a typed
getter of a kind other than the new one is used (`ErrConvertFailed`). -/
theorem mixed_kind_overwrite_last_writer_wins (m : stateSyncMap)
    (k : String) (v1 v2 : GoValue) (h : isEmptyStr k = false) :
    (m.add k v1).2 = .ok ()
  ∧ ((m.add k v1).1.add k v2).2 = .ok ()
  ∧ (((m.add k v1).1.add k v2).1.get k).2 = .ok v2
  ∧ ((((m.add k v1).1.add k v2).1.Load k).map GoValue.kind
      = some v2.kind)
  ∧ (v2.kind ≠ .superK →
      (((m.add k v1).1.add k v2).1.getAsSuperState k).2
        = .error .convertFailed)
  ∧ (v2.kind ≠ .clientK →
      (((m.add k v1).1.add k v2).1.getAsClientState k).2
        = .error .convertFailed)
  ∧ (v2.kind ≠ .peerK →
      (((m.add k v1).1.add k v2).1.getAsPeerState k).2
        = .error .convertFailed)
  ∧ (v2.kind ≠ .pieceK →
      (((m.add k v1).1.add k v2).1.getAsPieceState k).2
        = .error .convertFailed) := by
  have ha1 : m.add k v1 = (m.Store k v1, .ok ()) := add_of_nonempty m k v1 h
  have ha2 : (m.Store k v1).add k v2 = ((m.Store k v1).Store k v2, .ok ()) :=
    add_of_nonempty _ k v2 h
  have hl : ((m.Store k v1).Store k v2).Load k = some v2 :=
    Store_Load_self _ k v2
  have hg : ((m.Store k v1).Store k v2).get k
      = ((m.Store k v1).Store k v2, .ok v2) := get_of_present _ k v2 h hl
  refine ⟨by rw [ha1], by rw [ha1, ha2], by rw [ha1, ha2, hg],
    by rw [ha1, ha2, hl]; rfl, ?_, ?_, ?_, ?_⟩
  · intro hkind
    rw [ha1, ha2, getAsSuperState_of_wrongKind _ k v2 hg hkind]
  · intro hkind
    rw [ha1, ha2, getAsClientState_of_wrongKind _ k v2 hg hkind]
  · intro hkind
    rw [ha1, ha2, getAsPeerState_of_wrongKind _ k v2 hg hkind]
  · intro hkind
    rw [ha1, ha2, getAsPieceState_of_wrongKind _ k v2 hg hkind]

/-- Witness for the amended C3: overwriting a peer state with a piece
state under `"k"` succeeds, the key now holds the piece kind, and
`getAsPeerState` on it fails with `ErrConvertFailed`. -/
theorem mixed_kind_overwrite_last_writer_wins_witness :
    ((newStateSyncMap.add "k" (.peerState 0)).1.add "k" (.pieceState 1)).2
      = .ok ()
  ∧ ((((newStateSyncMap.add "k" (.peerState 0)).1.add "k"
      (.pieceState 1)).1.Load "k").map GoValue.kind
      = some VariantKind.pieceK)
  ∧ (((newStateSyncMap.add "k" (.peerState 0)).1.add "k"
      (.pieceState 1)).1.getAsPeerState "k").2 = .error .convertFailed := by
  obtain ⟨_, h2, _, h4, _, _, h7, _⟩ :=
    mixed_kind_overwrite_last_writer_wins newStateSyncMap "k"
      (.peerState 0) (.pieceState 1) rfl
  exact ⟨h2, h4, h7 (by simp [GoValue.kind])⟩

/-- Claim C4: `add` on a non-empty key unconditionally inserts or
overwrites: `add k v1` then `add k v2` both succeed and a subsequent
`get k` returns `v2` (last-writer-wins, no create-if-absent check). -/
theorem add_last_writer_wins (m : stateSyncMap) (k : String)
    (v1 v2 : GoValue) (h : isEmptyStr k = false) :
    (m.add k v1).2 = .ok ()
  ∧ ((m.add k v1).1.add k v2).2 = .ok ()
  ∧ (((m.add k v1).1.add k v2).1.get k).2 = .ok v2 := by
  have ha1 : m.add k v1 = (m.Store k v1, .ok ()) := add_of_nonempty m k v1 h
  have ha2 : (m.Store k v1).add k v2 = ((m.Store k v1).Store k v2, .ok ()) :=
    add_of_nonempty _ k v2 h
  have hg : ((m.Store k v1).Store k v2).get k
      = ((m.Store k v1).Store k v2, .ok v2) :=
    get_of_present _ k v2 h (Store_Load_self _ k v2)
  exact ⟨by rw [ha1], by rw [ha1, ha2], by rw [ha1, ha2, hg]⟩

/-- Witness for C4: two successive adds under `"b"` both succeed and
`get` returns the second value. -/
theorem add_last_writer_wins_witness :
    (newStateSyncMap.add "b" (.superState 1)).2 = .ok ()
  ∧ ((newStateSyncMap.add "b" (.superState 1)).1.add "b"
      (.superState 2)).2 = .ok ()
  ∧ (((newStateSyncMap.add "b" (.superState 1)).1.add "b"
      (.superState 2)).1.get "b").2 = .ok (.superState 2) :=
  add_last_writer_wins newStateSyncMap "b" (.superState 1)
    (.superState 2) rfl

/-- Claim C5: `get`, `remove` and `add` with the empty-string key always
fail with `ErrEmptyValue`, never with `ErrDataNotFound`, for every store
state. -/
theorem empty_key_always_emptyValue (m : stateSyncMap) (v : GoValue) :
    m.get "" = (m, .error .emptyValue)
  ∧ m.remove "" = (m, .error .emptyValue)
  ∧ m.add "" v = (m, .error .emptyValue)
  ∧ (m.get "").2 ≠ Except.error GoErr.dataNotFound
  ∧ (m.remove "").2 ≠ Except.error GoErr.dataNotFound := by
  have hg := get_of_empty m "" rfl
  have hr := remove_of_empty m "" rfl
  exact ⟨hg, hr, add_of_empty m "" v rfl, by rw [hg]; simp,
    by rw [hr]; simp⟩

/-- Claim C6: `get` and `remove` on a non-empty key that is not in the
map fail with `ErrDataNotFound`; neither succeeds nor returns a value. -/
theorem absent_key_notFound (m : stateSyncMap) (k : String)
    (h1 : isEmptyStr k = false) (h2 : m.Load k = none) :
    m.get k = (m, .error .dataNotFound)
  ∧ m.remove k = (m, .error .dataNotFound) :=
  ⟨get_of_absent m k h1 h2, remove_of_absent m k h1 h2⟩

/-- Witness for C6: on the fresh map the never-inserted key `"c"` gives
`ErrDataNotFound` for both `get` and `remove`. -/
theorem absent_key_notFound_witness :
    newStateSyncMap.get "c" = (newStateSyncMap, .error .dataNotFound)
  ∧ newStateSyncMap.remove "c" = (newStateSyncMap, .error .dataNotFound) :=
  absent_key_notFound newStateSyncMap "c" rfl rfl

/-- Claim C7: `remove` on a present non-empty key succeeds and deletes
it: afterwards `get` and all four typed getters fail with
`ErrDataNotFound`, until the key is added again, after which `get`
succeeds with the new value. -/
theorem remove_present_deletes (m : stateSyncMap) (k : String)
    (v : GoValue) (h1 : isEmptyStr k = false) (h2 : m.Load k = some v) :
    (m.remove k).2 = .ok ()
  ∧ ((m.remove k).1.get k).2 = .error .dataNotFound
  ∧ ((m.remove k).1.getAsSuperState k).2 = .error .dataNotFound
  ∧ ((m.remove k).1.getAsClientState k).2 = .error .dataNotFound
  ∧ ((m.remove k).1.getAsPeerState k).2 = .error .dataNotFound
  ∧ ((m.remove k).1.getAsPieceState k).2 = .error .dataNotFound
  ∧ (∀ w, (((m.remove k).1.add k w).1.get k).2 = .ok w) := by
  have hr : m.remove k = (m.Delete k, .ok ()) := remove_of_present m k v h1 h2
  have hg : (m.Delete k).get k = (m.Delete k, .error .dataNotFound) :=
    get_of_absent _ k h1 (Delete_Load_self m k)
  refine ⟨by rw [hr], by rw [hr, hg], ?_, ?_, ?_, ?_, ?_⟩
  · rw [hr, getAsSuperState_of_get_error _ k _ hg]
  · rw [hr, getAsClientState_of_get_error _ k _ hg]
  · rw [hr, getAsPeerState_of_get_error _ k _ hg]
  · rw [hr, getAsPieceState_of_get_error _ k _ hg]
  · intro w
    have ha : (m.Delete k).add k w = ((m.Delete k).Store k w, .ok ()) :=
      add_of_nonempty _ k w h1
    rw [hr, ha, get_of_present _ k w h1 (Store_Load_self _ k w)]

/-- Witness for C7: removing the present key `"pk"` from `sampleMap`
succeeds; afterwards `get` and `getAsPeerState` on it give
`ErrDataNotFound`, and adding it again makes `get` succeed. -/
theorem remove_present_deletes_witness :
    (sampleMap.remove "pk").2 = .ok ()
  ∧ ((sampleMap.remove "pk").1.get "pk").2 = .error .dataNotFound
  ∧ ((sampleMap.remove "pk").1.getAsPeerState "pk").2
      = .error .dataNotFound
  ∧ (((sampleMap.remove "pk").1.add "pk" (.peerState 9)).1.get "pk").2
      = .ok (.peerState 9) := by
  obtain ⟨h1, h2, _, _, h5, _, h7⟩ :=
    remove_present_deletes sampleMap "pk" (.peerState 3) rfl rfl
  exact ⟨h1, h2, h5, h7 (.peerState 9)⟩

/-- Claim C8: every failing store operation leaves the contents
unchanged: `add`, `get` and `remove` failing with `ErrEmptyValue`, and
`get` and `remove` failing with `ErrDataNotFound`, all return the
key-to-value mapping exactly as it was. -/
theorem failing_ops_leave_map_unchanged (m : stateSyncMap) (k : String)
    (v : GoValue) :
    (isEmptyStr k = true →
      (m.add k v).1 = m ∧ (m.get k).1 = m ∧ (m.remove k).1 = m)
  ∧ (isEmptyStr k = false → m.Load k = none →
      (m.get k).1 = m ∧ (m.remove k).1 = m) := by
  constructor
  · intro hk
    rw [add_of_empty m k v hk, get_of_empty m k hk, remove_of_empty m k hk]
    exact ⟨rfl, rfl, rfl⟩
  · intro hk hl
    rw [get_of_absent m k hk hl, remove_of_absent m k hk hl]
    exact ⟨rfl, rfl⟩

/-- Witness for C8: on `sampleMap` the empty-key `add` and `get`, and
the absent-key `remove`, all leave the map untouched. -/
theorem failing_ops_leave_map_unchanged_witness :
    (sampleMap.add "" (.superState 0)).1 = sampleMap
  ∧ (sampleMap.get "").1 = sampleMap
  ∧ (sampleMap.remove "zz").1 = sampleMap := by
  obtain ⟨he, _⟩ :=
    failing_ops_leave_map_unchanged sampleMap "" (.superState 0)
  obtain ⟨_, hn⟩ :=
    failing_ops_leave_map_unchanged sampleMap "zz" (.superState 0)
  exact ⟨(he rfl).1, (he rfl).2.1, (hn rfl rfl).2⟩

/-- Claim C9: the store accepts and returns values of arbitrary dynamic
type: on a non-empty key, `add` succeeds and the untyped `get` returns
the value unchanged for every value, including values outside the four
entity kinds (the `other` constructor); no kind check happens on the
untyped path. -/
theorem add_accepts_arbitrary_values (m : stateSyncMap) (k : String)
    (h : isEmptyStr k = false) :
    (∀ v : GoValue, (m.add k v).2 = .ok ()
      ∧ ((m.add k v).1.get k).2 = .ok v)
  ∧ (∀ ty p, ((m.add k (.other ty p)).1.get k).2 = .ok (.other ty p)) := by
  constructor
  · intro v
    have ha := add_of_nonempty m k v h
    have hg := get_of_present (m.Store k v) k v h (Store_Load_self m k v)
    exact ⟨by rw [ha], by rw [ha, hg]⟩
  · intro ty p
    have ha := add_of_nonempty m k (GoValue.other ty p) h
    have hg := get_of_present (m.Store k (GoValue.other ty p)) k
      (GoValue.other ty p) h (Store_Load_self m k (GoValue.other ty p))
    rw [ha, hg]

/-- Witness for C9: a value of a dynamic type outside the four entity
kinds is stored and returned unchanged under the key `"d"`. -/
theorem add_accepts_arbitrary_values_witness :
    (newStateSyncMap.add "d" (.other "int" 42)).2 = .ok ()
  ∧ ((newStateSyncMap.add "d" (.other "int" 42)).1.get "d").2
      = .ok (.other "int" 42) := by
  obtain ⟨hv, _⟩ := add_accepts_arbitrary_values newStateSyncMap "d" rfl
  exact hv (.other "int" 42)

/-- Claim C10: `get` and all four typed getters are read-only: for every
key (empty, absent or present) and every store state, they return the
key-to-value mapping unchanged, whether the call succeeds or fails. -/
theorem getters_readonly (m : stateSyncMap) (k : String) :
    (m.get k).1 = m
  ∧ (m.getAsSuperState k).1 = m
  ∧ (m.getAsClientState k).1 = m
  ∧ (m.getAsPeerState k).1 = m
  ∧ (m.getAsPieceState k).1 = m :=
  ⟨get_fst m k, getAsSuperState_fst m k, getAsClientState_fst m k,
    getAsPeerState_fst m k, getAsPieceState_fst m k⟩

end Progress
